import Mathlib

/-!
Verification development for the Reddit fetcher script
(`fetch_reddit_posts.py`).  Text is modelled as `List Char`; the functions
below are direct translations of the Python source.  Python's pseudo-random
draws (`random.randint`) are modelled as explicit parameters, and the current
wall-clock time as an explicit `now` argument.
-/

/-- Python whitespace characters recognised by `str.split()`. -/
def isSpaceChar (c : Char) : Bool :=
  c = ' ' || c = '\t' || c = '\n' || c = '\r' || c = '\x0b' || c = '\x0c'

/-- Models Python `' '.join(text.split())`: split on whitespace runs
(discarding empty fragments) and re-join with single spaces. -/
def collapseWS (l : List Char) : List Char :=
  List.intercalate [' '] ((List.splitOnP isSpaceChar l).filter (fun w => !w.isEmpty))

/-- Fuel-driven worker for `replaceAll`.  The fuel starts at the input length,
which always suffices because every step consumes at least one input
character (patterns are non-empty), so the fuel-exhaustion arm is
unreachable. -/
def replaceAllFuel (pat rep : List Char) : Nat → List Char → List Char
  | _, [] => []
  | 0, l => l
  | fuel + 1, c :: rest =>
    if !pat.isEmpty && pat.isPrefixOf (c :: rest) then
      rep ++ replaceAllFuel pat rep fuel ((c :: rest).drop pat.length)
    else
      c :: replaceAllFuel pat rep fuel rest

/-- Models Python `str.replace(pat, rep)` for a non-empty pattern:
left-to-right, non-overlapping replacement of every occurrence. -/
def replaceAll (pat rep l : List Char) : List Char :=
  replaceAllFuel pat rep l.length l

/-- The markup/entity replacement chain of `clean_comment_text`, in source
order: `'**'→''`, `'*'→''`, `'&gt;'→'>'`, `'&lt;'→'<'`, `'&amp;'→'&'`. -/
def stripMarkup (text : List Char) : List Char :=
  replaceAll ("&amp;".toList) ("&".toList)
    (replaceAll ("&lt;".toList) ("<".toList)
      (replaceAll ("&gt;".toList) (">".toList)
        (replaceAll ("*".toList) []
          (replaceAll ("**".toList) [] text))))

/-- Translation of `clean_text`: empty/deletion-marker inputs map to `""`;
otherwise whitespace is collapsed and the result truncated at 500 characters
with an appended `"..."`. -/
def clean_text (text : List Char) : List Char :=
  if text = [] ∨ text = ("[deleted]".toList) ∨ text = ("[removed]".toList) then []
  else
    let t := collapseWS text
    if t.length > 500 then t.take 500 ++ ("...".toList) else t

/-- Translation of `clean_comment_text`: empty/deletion-marker inputs map to
`""`; otherwise markup markers and HTML entities are replaced, whitespace is
collapsed, and the result truncated at 300 characters with `"..."`. -/
def clean_comment_text (text : List Char) : List Char :=
  if text = [] ∨ text = ("[deleted]".toList) ∨ text = ("[removed]".toList) then []
  else
    let t := collapseWS (stripMarkup text)
    if t.length > 300 then t.take 300 ++ ("...".toList) else t

/-- Models the domain of Python `datetime.fromtimestamp`: the `datetime`
range (year 1 to year 9999, UTC); outside it the call raises and
`convert_reddit_time` falls into its `except` arm. -/
def fromtimestampOk (ts : Int) : Bool :=
  -62135596800 ≤ ts && ts ≤ 253402300799

/-- Translation of `convert_reddit_time`.  `now` is the current wall-clock
epoch second; `r6` models `random.randint(1, 6)` and `r12` models
`random.randint(1, 12)`.  `Int.ediv`/`Int.emod` match Python's flooring
`timedelta` normalisation (`diff.days`, `diff.seconds`). -/
def convert_reddit_time (ts now : Int) (r6 r12 : Nat) : List Char :=
  if ts = 0 then (toString r6).toList ++ (" hours ago".toList)
  else if !fromtimestampOk ts then (toString r12).toList ++ (" hours ago".toList)
  else
    let days : Int := (now - ts) / 86400
    let secs : Int := (now - ts) % 86400
    if days > 0 then (toString days).toList ++ (" days ago".toList)
    else if secs > 3600 then (toString (secs / 3600)).toList ++ (" hours ago".toList)
    else if secs > 60 then (toString (secs / 60)).toList ++ (" minutes ago".toList)
    else "just now".toList

/-- ASCII lowercasing, modelling Python `str.lower()` on the ASCII URLs the
script handles. -/
def toLowerL (l : List Char) : List Char := l.map Char.toLower

/-- The image suffix list of `determine_post_type` / `get_image_url`. -/
def imageExts : List (List Char) :=
  [".jpg".toList, ".jpeg".toList, ".png".toList, ".gif".toList, ".webp".toList]

/-- Models Python's `pat in l` substring test on strings. -/
def isSubL (pat : List Char) : List Char → Bool
  | [] => pat.isEmpty
  | c :: rest => pat.isPrefixOf (c :: rest) || isSubL pat rest

/-- Models `any(ext in url.lower() for ext in [...])`: substring containment
of some image suffix anywhere in the lowercased URL. -/
def hasImageExt (url : List Char) : Bool :=
  imageExts.any (fun ext => isSubL ext (toLowerL url))

/-- Environment of a run: the wall-clock time and the pseudo-random draws
used by `convert_reddit_time` (`random.randint(1, 6)` and
`random.randint(1, 12)`). -/
structure TimeEnv where
  now : Int
  r6 : Nat
  r12 : Nat
deriving DecidableEq

/-- One child of a comment-listing response.  `kind` is the listing kind tag
(`'t1'` for a genuine comment); `body` is `none` when the `body` field is
null or absent. -/
structure RawComment where
  kind : List Char
  body : Option (List Char)
  author : List Char
  ups : Int
  created_utc : Int
  comment_id : List Char
deriving DecidableEq

/-- The filtering applied by the loop of `fetch_post_comments`: kind must be
`'t1'`, the body must not be a deletion/removal marker or null, and the
cleaned text must be truthy with length greater than 10. -/
def keepComment (c : RawComment) : Bool :=
  c.kind = ("t1".toList) &&
    match c.body with
    | none => false
    | some b =>
      !(b = ("[deleted]".toList)) && !(b = ("[removed]".toList)) &&
        !(clean_comment_text b).isEmpty && (clean_comment_text b).length > 10

/-- A stored sub-item, mirroring the dict built in `fetch_post_comments`. -/
structure ProcessedComment where
  author : List Char
  text : List Char
  upvotes : Int
  time : List Char
  reddit_id : List Char
deriving DecidableEq

/-- Builds the stored sub-item dict from a surviving raw comment. -/
def processComment (env : TimeEnv) (c : RawComment) : ProcessedComment :=
  { author := c.author
    text := clean_comment_text (c.body.getD [])
    upvotes := max c.ups 1
    time := convert_reddit_time c.created_utc env.now env.r6 env.r12
    reddit_id := c.comment_id }

/-- Translation of `fetch_post_comments`.  `resp` is the parsed comment
listing: `none` models a transport/parse failure or a response without the
expected two-element / `data.children` structure (all of which leave the
result empty); `some children` is the raw child list.  The loop takes the
first 5 children and keeps those passing `keepComment`. -/
def fetch_post_comments (env : TimeEnv) (resp : Option (List RawComment)) :
    List ProcessedComment :=
  match resp with
  | none => []
  | some children => ((children.take 5).filter keepComment).map (processComment env)

/-- One child of a channel listing response, with the fields the script
consumes.  `preview_images` models the `preview.images` chain: `none` when
the keys are missing, otherwise the list of `source.url` strings (an empty
list makes the `[0]` access fail and the script suppresses it).
`commentResponse` is the comment-listing response for this post's permalink
(`none` models a failed fetch). -/
structure RawPost where
  removed_by_category : Bool
  title : List Char
  post_id : List Char
  permalink : List Char
  selftext : List Char
  url : List Char
  author : List Char
  created_utc : Int
  ups : Int
  num_comments : Int
  preview_images : Option (List (List Char))
  commentResponse : Option (List RawComment)
deriving DecidableEq

/-- Translation of `determine_post_type`. -/
def determine_post_type (post : RawPost) : List Char :=
  if post.selftext ≠ [] then "text".toList
  else if hasImageExt post.url then "image".toList
  else if post.url ≠ [] ∧ post.url ≠ post.permalink then "link".toList
  else "text".toList

/-- Translation of `get_image_url`: the URL itself when it contains an image
suffix, else the first preview image source URL with `'&amp;'` unescaped,
else `None` (structural-access failures suppressed). -/
def get_image_url (post : RawPost) : Option (List Char) :=
  if hasImageExt post.url then some post.url
  else
    match post.preview_images with
    | some (u :: _) => some (replaceAll ("&amp;".toList) ("&".toList) u)
    | _ => none

/-- The skip condition of the posts loop: a truthy `removed_by_category`
or a title equal to `'[deleted]'`. -/
def skipPost (p : RawPost) : Bool :=
  p.removed_by_category || p.title = ("[deleted]".toList)

/-- A stored item, mirroring `processed_post` in the source. -/
structure ProcessedPost where
  id : Nat
  subreddit : List Char
  title : List Char
  author : List Char
  time : List Char
  upvotes : Int
  comments : Int
  text : List Char
  url : List Char
  post_type : List Char
  image : Option (List Char)
  reddit_id : List Char
  reddit_permalink : List Char
deriving DecidableEq

/-- Builds the stored item dict for a raw post, under sequence id `k`. -/
def processPost (env : TimeEnv) (sub : List Char) (k : Nat) (p : RawPost) :
    ProcessedPost :=
  { id := k
    subreddit := sub
    title := p.title
    author := p.author
    time := convert_reddit_time p.created_utc env.now env.r6 env.r12
    upvotes := p.ups
    comments := p.num_comments
    text := clean_text p.selftext
    url := p.url
    post_type := determine_post_type p
    image := get_image_url p
    reddit_id := p.post_id
    reddit_permalink := ("https://reddit.com".toList) ++ p.permalink }

/-- The sub-item list obtained for one post: the comment fetch runs only when
the native id and permalink are non-empty, otherwise no fetch happens and the
post contributes no sub-items. -/
def commentsFor (env : TimeEnv) (p : RawPost) : List ProcessedComment :=
  if p.post_id ≠ [] ∧ p.permalink ≠ [] then fetch_post_comments env p.commentResponse
  else []

/-- The mutable state of the run: the accumulated item list, the id to
sub-item-list association (in insertion order), and the next sequence id
(`post_id_counter`). -/
structure RunState where
  posts : List ProcessedPost
  comments : List (Nat × List ProcessedComment)
  counter : Nat
deriving DecidableEq

/-- One iteration of the posts loop for a surviving raw post: store the
processed item, store its sub-items when the comment fetch returned a
non-empty list, and advance the sequence id. -/
def stepItem (env : TimeEnv) (st : RunState) (item : List Char × RawPost) : RunState :=
  let post := processPost env item.1 st.counter item.2
  let cs := commentsFor env item.2
  { posts := st.posts ++ [post]
    comments := if cs = [] then st.comments else st.comments ++ [(st.counter, cs)]
    counter := st.counter + 1 }

/-- The surviving raw posts of one channel, paired with the channel name:
a failed fetch (`none`, covering transport errors and missing
`data.children` structure) contributes nothing; otherwise the first 3
children that are not skipped are processed. -/
def chItems (c : List Char × Option (List RawPost)) : List (List Char × RawPost) :=
  match c.2 with
  | none => []
  | some children => ((children.take 3).filter (fun p => !skipPost p)).map (fun p => (c.1, p))

/-- Processing of one channel: the per-channel `try`/`except` catches a
failed fetch and continues with the state unchanged. -/
def processChannel (env : TimeEnv) (st : RunState) (c : List Char × Option (List RawPost)) :
    RunState :=
  (chItems c).foldl (stepItem env) st

/-- The accumulation phase of `fetch_reddit_posts_and_comments`: fold the
channel list over the initial state (`all_posts = []`, `all_comments = {}`,
`post_id_counter = 1`). -/
def runFetch (env : TimeEnv) (channels : List (List Char × Option (List RawPost))) :
    RunState :=
  channels.foldl (processChannel env) ⟨[], [], 1⟩

/-- The flattened list of surviving raw posts of a run, in fetch order. -/
def survivors : List (List Char × Option (List RawPost)) → List (List Char × RawPost)
  | [] => []
  | c :: rest => chItems c ++ survivors rest

/-- The items built from a survivor list when the next sequence id is `k`. -/
def buildPosts (env : TimeEnv) (k : Nat) : List (List Char × RawPost) → List ProcessedPost
  | [] => []
  | item :: rest => processPost env item.1 k item.2 :: buildPosts env (k + 1) rest

/-- The id to sub-item-list association built from a survivor list when the
next sequence id is `k`: posts whose comment fetch yields nothing are
absent. -/
def buildComments (env : TimeEnv) (k : Nat) :
    List (List Char × RawPost) → List (Nat × List ProcessedComment)
  | [] => []
  | item :: rest =>
    let cs := commentsFor env item.2
    if cs = [] then buildComments env (k + 1) rest
    else (k, cs) :: buildComments env (k + 1) rest

/-- The built-in fallback items of `create_fallback_posts`.  The Python
fallback dicts carry no `url`, `reddit_id` or `reddit_permalink` keys; those
fields are modelled as empty strings. -/
def create_fallback_posts : List ProcessedPost :=
  [ { id := 1
      subreddit := "science".toList
      title := ("Breakthrough study reveals how social media algorithms fundamentally alter human cognitive patterns".toList)
      author := "cognitive_researcher".toList
      time := "4 hours ago".toList
      upvotes := 1847
      comments := 423
      text := ("A comprehensive study tracking 50,000 participants reveals how algorithmic content curation affects neural pathways and critical thinking abilities.".toList)
      url := []
      post_type := "text".toList
      image := none
      reddit_id := []
      reddit_permalink := [] }
  , { id := 2
      subreddit := "blurrypicturesofcats".toList
      title := "My cat moving at the speed of light".toList
      author := "cat_photographer".toList
      time := "2 hours ago".toList
      upvotes := 2341
      comments := 89
      text := []
      url := []
      post_type := "image".toList
      image := some ("https://images.unsplash.com/photo-1514888286974-6c03e2ca1dba?w=600&h=400&fit=crop".toList)
      reddit_id := []
      reddit_permalink := [] }
  , { id := 3
      subreddit := "dbz".toList
      title := "Goku vs Superman: Who would win in a real fight?".toList
      author := "anime_debater".toList
      time := "6 hours ago".toList
      upvotes := 756
      comments := 234
      text := ("Settling this debate once and for all with power scaling analysis...".toList)
      url := []
      post_type := "text".toList
      image := none
      reddit_id := []
      reddit_permalink := [] } ]

/-- The built-in fallback sub-item mapping of `create_fallback_comments`.
The fallback comment dicts carry no `reddit_id` key; that field is modelled
as an empty string. -/
def create_fallback_comments : List (Nat × List ProcessedComment) :=
  [ (1, [ { author := "research_fan".toList
            text := ("This is fascinating research. The implications for understanding digital communication are huge.".toList)
            upvotes := 45
            time := "2 hours ago".toList
            reddit_id := [] }
        , { author := "skeptical_scientist".toList
            text := ("While interesting, I wonder about the sample size and methodology. Need to see the peer review.".toList)
            upvotes := 23
            time := "1 hour ago".toList
            reddit_id := [] } ])
  , (2, [ { author := "cat_lover_99".toList
            text := "This is art. Pure, blurry art.".toList
            upvotes := 67
            time := "1 hour ago".toList
            reddit_id := [] } ])
  , (3, [ { author := "power_scaler".toList
            text := "Goku wins easily. Ultra Instinct is basically unbeatable.".toList
            upvotes := 34
            time := "3 hours ago".toList
            reddit_id := [] }
        , { author := "superman_fan".toList
            text := "Superman has no limits though. He always finds a way to win.".toList
            upvotes := 28
            time := "2 hours ago".toList
            reddit_id := [] } ]) ]

/-- The JSON document written by the script (the fields the claims are
about; the generation timestamp and channel-list echo are omitted). -/
structure OutputDoc where
  total_posts : Nat
  posts : List ProcessedPost
  comments : List (Nat × List ProcessedComment)
  source_fallback : Bool
deriving DecidableEq

/-- Translation of `fetch_reddit_posts_and_comments`.  The per-channel
`try`/`except continue` is inside `runFetch`; `outerFailure` models an
exception escaping the per-channel guard (raised outside the channel loop,
e.g. while writing the output files), which is the only path into the outer
`except` arm that writes the fallback dataset. -/
def fetch_reddit_posts_and_comments (env : TimeEnv)
    (channels : List (List Char × Option (List RawPost))) (outerFailure : Bool) :
    OutputDoc :=
  if outerFailure then
    { total_posts := create_fallback_posts.length
      posts := create_fallback_posts
      comments := create_fallback_comments
      source_fallback := true }
  else
    let st := runFetch env channels
    { total_posts := st.posts.length
      posts := st.posts
      comments := st.comments
      source_fallback := false }

/-- The configured channel list of the script. -/
def subreddits : List (List Char) :=
  [ "science".toList, "survival".toList, "onebag".toList, "xxfitness".toList
  , "rustyrails".toList, "blurrypicturesofcats".toList, "scams".toList
  , "dbz".toList, "cartalkuk".toList, "sales".toList
  , "accidentalwesanderson".toList, "worldbuilding".toList, "aww".toList
  , "pics".toList, "cozyplaces".toList, "malelivingspaces".toList
  , "evilbuildings".toList, "askreddit".toList, "todayilearned".toList
  , "explainlikeimfive".toList, "changemyview".toList
  , "unpopularopinion".toList, "showerthoughts".toList, "futurology".toList
  , "cogsci".toList ]

/-!
Spec-side vocabulary.  The definitions below follow the specification's
words (suffix/"extension" matching, the unit of a relative-time string,
the four documented output formats) and are compared with the source
translations above.
-/

/-- Suffix test on character lists: `t` is the trailing segment of `l`. -/
def endsWithL (l t : List Char) : Bool :=
  decide (t.length ≤ l.length) && l.drop (l.length - t.length) = t

/-- Follows the spec's words for type classification, reading "the URL
extension matches a known image suffix" as a suffix match on the lowercased
URL; to be compared with `determine_post_type` from the source. -/
def determine_post_type_ext (post : RawPost) : List Char :=
  if post.selftext ≠ [] then "text".toList
  else if imageExts.any (fun ext => endsWithL (toLowerL post.url) ext) then "image".toList
  else if post.url ≠ [] ∧ post.url ≠ post.permalink then "link".toList
  else "text".toList

/-- The coarseness rank of a relative-time string: days are coarser than
hours, hours than minutes, minutes than "just now". -/
def unitRank (s : List Char) : Nat :=
  if endsWithL s (" days ago".toList) then 3
  else if endsWithL s (" hours ago".toList) then 2
  else if endsWithL s (" minutes ago".toList) then 1
  else 0

/-- The coarseness rank determined by an elapsed time in seconds, per the
source's branch structure. -/
def rankOfElapsed (e : Int) : Nat :=
  if 86400 ≤ e then 3
  else if 3600 < e then 2
  else if 60 < e then 1
  else 0

/-- The four documented relative-time output formats. -/
def fourFormats (s : List Char) : Prop :=
  (∃ n : Nat, s = (toString n).toList ++ (" days ago".toList)) ∨
  (∃ n : Nat, s = (toString n).toList ++ (" hours ago".toList)) ∨
  (∃ n : Nat, s = (toString n).toList ++ (" minutes ago".toList)) ∨
  s = ("just now".toList)

/-!
Helper lemmas.
-/

lemma drop_len_add (p t : List Char) (k : Nat) :
    (p ++ t).drop (p.length + k) = t.drop k := by
  induction p with
  | nil => simp
  | cons a p ih => simp [Nat.succ_add, ih]

lemma endsWithL_append_self (p t : List Char) : endsWithL (p ++ t) t = true := by
  simp [endsWithL, List.length_append, List.drop_left]

lemma endsWithL_append_of_le (p t1 t2 : List Char) (h : t1.length ≤ t2.length) :
    endsWithL (p ++ t2) t1 = endsWithL t2 t1 := by
  unfold endsWithL
  have h1 : t1.length ≤ p.length + t2.length := by omega
  have hlen : (p ++ t2).length - t1.length = p.length + (t2.length - t1.length) := by
    rw [List.length_append]; omega
  rw [hlen, drop_len_add]
  simp [h, h1]

lemma unitRank_days (p : List Char) : unitRank (p ++ (" days ago".toList)) = 3 := by
  unfold unitRank
  rw [endsWithL_append_self]
  simp

lemma unitRank_hours (p : List Char) : unitRank (p ++ (" hours ago".toList)) = 2 := by
  have h1 : endsWithL (p ++ (" hours ago".toList)) (" days ago".toList) = false := by
    rw [endsWithL_append_of_le _ _ _ (by decide)]; decide
  unfold unitRank
  rw [h1, endsWithL_append_self]
  simp

lemma unitRank_minutes (p : List Char) : unitRank (p ++ (" minutes ago".toList)) = 1 := by
  have h1 : endsWithL (p ++ (" minutes ago".toList)) (" days ago".toList) = false := by
    rw [endsWithL_append_of_le _ _ _ (by decide)]; decide
  have h2 : endsWithL (p ++ (" minutes ago".toList)) (" hours ago".toList) = false := by
    rw [endsWithL_append_of_le _ _ _ (by decide)]; decide
  unfold unitRank
  rw [h1, h2, endsWithL_append_self]
  simp

lemma runFetch_aux (env : TimeEnv) (channels : List (List Char × Option (List RawPost))) :
    ∀ st : RunState,
      channels.foldl (processChannel env) st = (survivors channels).foldl (stepItem env) st := by
  induction channels with
  | nil => intro st; rfl
  | cons c rest ih =>
    intro st
    simp only [List.foldl_cons, survivors, List.foldl_append]
    exact ih _

lemma foldl_stepItem (env : TimeEnv) (l : List (List Char × RawPost)) :
    ∀ (ps : List ProcessedPost) (cm : List (Nat × List ProcessedComment)) (k : Nat),
      l.foldl (stepItem env) ⟨ps, cm, k⟩ =
        ⟨ps ++ buildPosts env k l, cm ++ buildComments env k l, k + l.length⟩ := by
  induction l with
  | nil => intro ps cm k; simp [buildPosts, buildComments]
  | cons item rest ih =>
    intro ps cm k
    have hstep : stepItem env ⟨ps, cm, k⟩ item =
        ⟨ps ++ [processPost env item.1 k item.2],
         if commentsFor env item.2 = [] then cm else cm ++ [(k, commentsFor env item.2)],
         k + 1⟩ := rfl
    simp only [List.foldl_cons, hstep]
    by_cases hc : commentsFor env item.2 = []
    · rw [if_pos hc, ih]
      simp [buildPosts, buildComments, hc]
      omega
    · rw [if_neg hc, ih]
      simp [buildPosts, buildComments, hc]
      omega

lemma runFetch_spec (env : TimeEnv) (channels : List (List Char × Option (List RawPost))) :
    runFetch env channels =
      ⟨buildPosts env 1 (survivors channels), buildComments env 1 (survivors channels),
       1 + (survivors channels).length⟩ := by
  unfold runFetch
  rw [runFetch_aux, foldl_stepItem]
  simp

lemma buildPosts_length (env : TimeEnv) :
    ∀ (l : List (List Char × RawPost)) (k : Nat), (buildPosts env k l).length = l.length := by
  intro l
  induction l with
  | nil => intro k; rfl
  | cons item rest ih => intro k; simp [buildPosts, ih]

lemma buildPosts_ids (env : TimeEnv) :
    ∀ (l : List (List Char × RawPost)) (k : Nat),
      (buildPosts env k l).map (fun p => p.id) = List.range' k l.length := by
  intro l
  induction l with
  | nil => intro k; rfl
  | cons item rest ih =>
    intro k
    simp [buildPosts, List.range'_succ, ih, processPost]

lemma lookup_buildComments_lt (env : TimeEnv) (n : Nat) :
    ∀ (l : List (List Char × RawPost)) (k : Nat), n < k →
      List.lookup n (buildComments env k l) = none := by
  intro l
  induction l with
  | nil => intro k _; rfl
  | cons item rest ih =>
    intro k h
    simp only [buildComments]
    by_cases hc : commentsFor env item.2 = []
    · rw [if_pos hc]
      exact ih (k + 1) (by omega)
    · rw [if_neg hc]
      have hne : (n == k) = false := by simp; omega
      simp only [List.lookup, hne]
      exact ih (k + 1) (by omega)

lemma lookup_buildComments (env : TimeEnv) :
    ∀ (l : List (List Char × RawPost)) (k i : Nat) (h : i < l.length),
      List.lookup (k + i) (buildComments env k l) =
        if commentsFor env (l.get ⟨i, h⟩).2 = [] then none
        else some (commentsFor env (l.get ⟨i, h⟩).2) := by
  intro l
  induction l with
  | nil => intro k i h; exact absurd h (by simp)
  | cons item rest ih =>
    intro k i h
    cases i with
    | zero =>
      simp only [buildComments, List.get]
      by_cases hc : commentsFor env item.2 = []
      · rw [if_pos hc, if_pos hc]
        exact lookup_buildComments_lt env (k + 0) rest (k + 1) (by omega)
      · rw [if_neg hc, if_neg hc]
        have heq : (k + 0 == k) = true := by simp
        simp only [List.lookup, heq]
    | succ j =>
      have hj : j < rest.length := by simpa using h
      simp only [buildComments, List.get]
      by_cases hc : commentsFor env item.2 = []
      · rw [if_pos hc]
        have := ih (k + 1) j hj
        rw [show k + (j + 1) = (k + 1) + j by omega]
        exact this
      · rw [if_neg hc]
        have hne : (k + (j + 1) == k) = false := by simp
        simp only [List.lookup, hne]
        have := ih (k + 1) j hj
        rw [show k + (j + 1) = (k + 1) + j by omega]
        exact this

lemma filter_take_eq (p : RawComment → Bool) :
    ∀ (l : List RawComment) (n : Nat),
      (l.take n).filter p = (l.filter p).take ((l.take n).filter p).length := by
  intro l
  induction l with
  | nil => intro n; simp
  | cons a rest ih =>
    intro n
    cases n with
    | zero => simp
    | succ m =>
      simp only [List.take_succ_cons, List.filter_cons]
      by_cases hp : p a
      · rw [if_pos hp, if_pos hp]
        simp only [List.length_cons, List.take_succ_cons]
        exact congrArg (List.cons a) (ih m)
      · rw [if_neg hp, if_neg hp]
        exact ih m

lemma convert_pos (ts now : Int) (r6 r12 : Nat) (h0 : ts ≠ 0)
    (hok : fromtimestampOk ts = true) :
    convert_reddit_time ts now r6 r12 =
      if (now - ts) / 86400 > 0 then
        (toString ((now - ts) / 86400)).toList ++ (" days ago".toList)
      else if (now - ts) % 86400 > 3600 then
        (toString ((now - ts) % 86400 / 3600)).toList ++ (" hours ago".toList)
      else if (now - ts) % 86400 > 60 then
        (toString ((now - ts) % 86400 / 60)).toList ++ (" minutes ago".toList)
      else ("just now".toList) := by
  unfold convert_reddit_time
  rw [if_neg h0, hok]
  rfl

lemma rankOfElapsed_mono (e1 e2 : Int) (h : e1 ≤ e2) :
    rankOfElapsed e1 ≤ rankOfElapsed e2 := by
  unfold rankOfElapsed
  split_ifs <;> omega

lemma unitRank_convert (ts now : Int) (r6 r12 : Nat) (h0 : ts ≠ 0)
    (hok : fromtimestampOk ts = true) (hle : ts ≤ now) :
    unitRank (convert_reddit_time ts now r6 r12) = rankOfElapsed (now - ts) := by
  rw [convert_pos ts now r6 r12 h0 hok]
  have he : 0 ≤ now - ts := by omega
  by_cases h1 : 86400 ≤ now - ts
  · rw [if_pos (show (now - ts) / 86400 > 0 by omega), unitRank_days]
    unfold rankOfElapsed
    rw [if_pos h1]
  · rw [if_neg (show ¬ ((now - ts) / 86400 > 0) by omega)]
    by_cases h2 : 3600 < now - ts
    · rw [if_pos (show (now - ts) % 86400 > 3600 by omega), unitRank_hours]
      unfold rankOfElapsed
      rw [if_neg h1, if_pos h2]
    · rw [if_neg (show ¬ ((now - ts) % 86400 > 3600) by omega)]
      by_cases h3 : 60 < now - ts
      · rw [if_pos (show (now - ts) % 86400 > 60 by omega), unitRank_minutes]
        unfold rankOfElapsed
        rw [if_neg h1, if_neg h2, if_pos h3]
      · rw [if_neg (show ¬ ((now - ts) % 86400 > 60) by omega)]
        unfold rankOfElapsed
        rw [if_neg h1, if_neg h2, if_neg h3]
        decide

lemma int_toString_nonneg (i : Int) (h : 0 ≤ i) : toString i = toString i.toNat := by
  obtain ⟨n, rfl⟩ := Int.eq_ofNat_of_zero_le h
  rfl

lemma survivors_all_none (channels : List (List Char × Option (List RawPost)))
    (h : ∀ c ∈ channels, c.2 = none) : survivors channels = [] := by
  induction channels with
  | nil => rfl
  | cons c rest ih =>
    have hc : c.2 = none := h c (by simp)
    have h1 : chItems c = [] := by unfold chItems; rw [hc]
    simp only [survivors, h1, List.nil_append]
    exact ih (fun d hd => h d (List.mem_cons_of_mem c hd))

/-!
Concrete inputs used by witnesses and counterexamples.
-/

/-- A plain surviving raw post whose comment listing is empty. -/
def demoPost : RawPost :=
  { removed_by_category := false
    title := "A demo post".toList
    post_id := "x1".toList
    permalink := "/r/demo/x1".toList
    selftext := "hello".toList
    url := []
    author := "u1".toList
    created_utc := 100
    ups := 3
    num_comments := 0
    preview_images := none
    commentResponse := some [] }

/-- A one-channel run whose single post has an empty comment listing. -/
def demoChannels : List (List Char × Option (List RawPost)) :=
  [("demo".toList, some [demoPost])]

/-- The configured channel list with every fetch failing. -/
def allFailChannels : List (List Char × Option (List RawPost)) :=
  subreddits.map (fun s => (s, none))

/-- A post whose URL contains `.jpg` as a substring but whose extension is
`.html`. -/
def trickyPost : RawPost :=
  { removed_by_category := false
    title := "Tricky".toList
    post_id := "t3x".toList
    permalink := "/r/demo/t3x".toList
    selftext := []
    url := "http://x.com/page.jpg.html".toList
    author := "u2".toList
    created_utc := 100
    ups := 1
    num_comments := 0
    preview_images := none
    commentResponse := none }

/-- The spec's scenario post: raw URL `http://x.com/cat.jpg`, empty
selftext. -/
def catPost : RawPost :=
  { removed_by_category := false
    title := "cat".toList
    post_id := "c4t".toList
    permalink := "/r/pics/c4t".toList
    selftext := []
    url := "http://x.com/cat.jpg".toList
    author := "u3".toList
    created_utc := 100
    ups := 1
    num_comments := 0
    preview_images := none
    commentResponse := none }

/-- A small comment listing: one genuine long comment, a `more` placeholder
and a deleted comment. -/
def demoComments : List RawComment :=
  [ { kind := "t1".toList
      body := some ("This is a sufficiently long comment body".toList)
      author := "c1".toList
      ups := 5
      created_utc := 100
      comment_id := "cm1".toList }
  , { kind := "more".toList
      body := some ("irrelevant".toList)
      author := "c2".toList
      ups := 0
      created_utc := 100
      comment_id := "cm2".toList }
  , { kind := "t1".toList
      body := some ("[deleted]".toList)
      author := "c3".toList
      ups := 2
      created_utc := 100
      comment_id := "cm3".toList } ]

/-!
Claims.
-/

/-- Claim C1, counterexample: with every channel fetch failing (all 25
configured channels unreachable) and no exception escaping the per-channel
guard, the output document has an empty item list and an empty sub-item
mapping — it does not contain the built-in fallback items, contradicting the
claim. -/
theorem claim_C1_counterexample :
    (fetch_reddit_posts_and_comments ⟨1700000000, 3, 7⟩ allFailChannels false).posts = [] ∧
    (fetch_reddit_posts_and_comments ⟨1700000000, 3, 7⟩ allFailChannels false).comments = [] ∧
    (fetch_reddit_posts_and_comments ⟨1700000000, 3, 7⟩ allFailChannels false).posts ≠
      create_fallback_posts ∧
    create_fallback_posts ≠ [] := by decide

/-- Claim C1, amended: per-channel fetch failures are caught by the
per-channel guard and skipped, so when every channel fetch fails the run
still completes normally with an empty item list and empty sub-item mapping
and the fallback dataset is not used; the built-in fallback items are
produced only when an exception escapes the per-channel guard (outer
failure). -/
theorem claim_C1_amended (env : TimeEnv)
    (channels : List (List Char × Option (List RawPost)))
    (h : ∀ c ∈ channels, c.2 = none) :
    (fetch_reddit_posts_and_comments env channels false).posts = [] ∧
    (fetch_reddit_posts_and_comments env channels false).comments = [] ∧
    (fetch_reddit_posts_and_comments env channels false).source_fallback = false ∧
    (fetch_reddit_posts_and_comments env channels true).posts = create_fallback_posts := by
  have hs := survivors_all_none channels h
  unfold fetch_reddit_posts_and_comments
  rw [runFetch_spec, hs]
  simp [buildPosts, buildComments]

/-- Claim C1, witness: the amended statement applied to the configured
channel list with every fetch failing. -/
theorem claim_C1_witness :
    (fetch_reddit_posts_and_comments ⟨1700000000, 3, 7⟩ allFailChannels false).posts = [] := by
  exact (claim_C1_amended ⟨1700000000, 3, 7⟩ allFailChannels (by decide)).1

/-- Claim C8: across a full run the sequence ids of the stored items are
exactly `1, 2, ..., n` in fetch order — unique, starting at 1, with no gaps
(skipped raw items consume no id, as they never reach the id-assigning
step). -/
theorem claim_C8 (env : TimeEnv) (channels : List (List Char × Option (List RawPost))) :
    (runFetch env channels).posts.map (fun p => p.id) =
      List.range' 1 (runFetch env channels).posts.length := by
  rw [runFetch_spec]
  show (buildPosts env 1 (survivors channels)).map (fun p => p.id) =
    List.range' 1 (buildPosts env 1 (survivors channels)).length
  rw [buildPosts_ids, buildPosts_length]

/-- Claim C10: the id to sub-item-list mapping has an entry for the item
with sequence id `1 + i` exactly when the comment fetch for that item
produced a non-empty list (a failed or skipped fetch produces the empty
list); an item with no surviving sub-items is absent rather than mapped to
an empty list. -/
theorem claim_C10 (env : TimeEnv) (channels : List (List Char × Option (List RawPost)))
    (i : Nat) (h : i < (survivors channels).length) :
    List.lookup (1 + i) (runFetch env channels).comments =
      if commentsFor env ((survivors channels).get ⟨i, h⟩).2 = [] then none
      else some (commentsFor env ((survivors channels).get ⟨i, h⟩).2) := by
  rw [runFetch_spec]
  exact lookup_buildComments env (survivors channels) 1 i h

/-- Claim C10, witness: in the one-post demo run whose comment listing is
empty, the mapping has no entry for id 1. -/
theorem claim_C10_witness :
    List.lookup 1 (runFetch ⟨1000000, 1, 1⟩ demoChannels).comments = none := by
  have h := claim_C10 ⟨1000000, 1, 1⟩ demoChannels 0 (by decide)
  rw [if_pos (by decide)] at h
  exact h

/-- Claim C2, counterexample: at exactly one minute elapsed (timestamp 60,
now 120) the code returns `"just now"`, not the `"1 minutes ago"` the claim
requires for "at least 1 minute elapsed" (and no `"N minutes ago"` at
all). -/
theorem claim_C2_counterexample :
    convert_reddit_time 60 120 1 1 = ("just now".toList) ∧
    (∀ n : Nat, n < 13 →
      ("just now".toList) ≠ (toString n).toList ++ (" minutes ago".toList)) ∧
    unitRank ("just now".toList) = 0 := by decide

/-- Claim C2, amended: for a zero/falsy timestamp the placeholder is
`"N hours ago"` with N drawn from [1,6] (hence within [1,12]); for a
non-zero timestamp outside the representable date range the placeholder has
N in [1,12]; otherwise (in particular for negative in-range timestamps) the
elapsed time e = now − ts is computed, giving `"N days ago"` when e ≥ 1 day,
`"N hours ago"` when 1 day > e > 3600 seconds (strict), `"N minutes ago"`
when 3600 ≥ e > 60 seconds (strict), else `"just now"`. -/
theorem claim_C2_amended (ts now : Int) (r6 r12 : Nat)
    (h6 : 1 ≤ r6 ∧ r6 ≤ 6) (h12 : 1 ≤ r12 ∧ r12 ≤ 12) :
    (ts = 0 →
      convert_reddit_time ts now r6 r12 = (toString r6).toList ++ (" hours ago".toList) ∧
      1 ≤ r6 ∧ r6 ≤ 12) ∧
    (ts ≠ 0 → fromtimestampOk ts = false →
      convert_reddit_time ts now r6 r12 = (toString r12).toList ++ (" hours ago".toList) ∧
      1 ≤ r12 ∧ r12 ≤ 12) ∧
    (ts ≠ 0 → fromtimestampOk ts = true → 0 ≤ now - ts →
      ((86400 ≤ now - ts →
          convert_reddit_time ts now r6 r12 =
            (toString ((now - ts) / 86400)).toList ++ (" days ago".toList)) ∧
       (3600 < now - ts → now - ts < 86400 →
          convert_reddit_time ts now r6 r12 =
            (toString ((now - ts) / 3600)).toList ++ (" hours ago".toList)) ∧
       (60 < now - ts → now - ts ≤ 3600 →
          convert_reddit_time ts now r6 r12 =
            (toString ((now - ts) / 60)).toList ++ (" minutes ago".toList)) ∧
       (now - ts ≤ 60 → convert_reddit_time ts now r6 r12 = ("just now".toList)))) := by
  refine ⟨?_, ?_, ?_⟩
  · intro h0
    unfold convert_reddit_time
    rw [if_pos h0]
    exact ⟨rfl, h6.1, by omega⟩
  · intro h0 hbad
    unfold convert_reddit_time
    rw [if_neg h0, hbad]
    exact ⟨rfl, h12.1, by omega⟩
  · intro h0 hok he
    rw [convert_pos ts now r6 r12 h0 hok]
    refine ⟨?_, ?_, ?_, ?_⟩
    · intro h1
      rw [if_pos (show (now - ts) / 86400 > 0 by omega)]
    · intro h1 h2
      rw [if_neg (show ¬ ((now - ts) / 86400 > 0) by omega),
          if_pos (show (now - ts) % 86400 > 3600 by omega),
          show (now - ts) % 86400 = now - ts by omega]
    · intro h1 h2
      rw [if_neg (show ¬ ((now - ts) / 86400 > 0) by omega),
          if_neg (show ¬ ((now - ts) % 86400 > 3600) by omega),
          if_pos (show (now - ts) % 86400 > 60 by omega),
          show (now - ts) % 86400 = now - ts by omega]
    · intro h1
      rw [if_neg (show ¬ ((now - ts) / 86400 > 0) by omega),
          if_neg (show ¬ ((now - ts) % 86400 > 3600) by omega),
          if_neg (show ¬ ((now - ts) % 86400 > 60) by omega)]

/-- Claim C2, witness: the amended statement applied at timestamp 100 with
now = 200 gives the minutes branch. -/
theorem claim_C2_witness : convert_reddit_time 100 200 1 1 = ("1 minutes ago".toList) := by
  have h := ((claim_C2_amended 100 200 1 1 (by decide) (by decide)).2.2
    (by decide) (by decide) (by decide)).2.2.1 (by decide) (by decide)
  rw [h]
  decide

/-- Claim C9, counterexample: with now = 1000000, moving from timestamp 1
(elapsed 999999 seconds, `"11 days ago"`, the days unit) to timestamp 0
(elapsed 1000000 seconds, but the zero-timestamp placeholder `"1 hours
ago"`, the hours unit) increases the elapsed time yet moves the result from
a coarser unit back to a finer one, contradicting monotone coarsening over
all T ≤ now. -/
theorem claim_C9_counterexample :
    (1 : Int) ≤ 1000000 ∧ (0 : Int) ≤ 1000000 ∧
    ((1000000 : Int) - 0 > 1000000 - 1) ∧
    unitRank (convert_reddit_time 1 1000000 1 1) = 3 ∧
    unitRank (convert_reddit_time 0 1000000 1 1) = 2 := by decide

/-- Claim C9, amended: for every timestamp the result is one of the four
documented formats and the function is total; monotone coarsening of the
output unit holds for positive timestamps within the representable date
range: if 0 < ts2 ≤ ts1 ≤ now then the unit at ts1 is no coarser than the
unit at ts2 (the zero-timestamp random placeholder is excluded, as it
breaks monotonicity). -/
theorem claim_C9_amended (now ts ts1 ts2 : Int) (r6 r12 : Nat)
    (h6 : 1 ≤ r6 ∧ r6 ≤ 6) (h12 : 1 ≤ r12 ∧ r12 ≤ 12) :
    (ts ≤ now → fourFormats (convert_reddit_time ts now r6 r12)) ∧
    (0 < ts2 → ts2 ≤ ts1 → ts1 ≤ now →
      fromtimestampOk ts1 = true → fromtimestampOk ts2 = true →
      unitRank (convert_reddit_time ts1 now r6 r12) ≤
        unitRank (convert_reddit_time ts2 now r6 r12)) := by
  constructor
  · intro hle
    by_cases h0 : ts = 0
    · unfold convert_reddit_time
      rw [if_pos h0]
      exact Or.inr (Or.inl ⟨r6, rfl⟩)
    by_cases hok : fromtimestampOk ts = true
    · rw [convert_pos ts now r6 r12 h0 hok]
      have he : 0 ≤ now - ts := by omega
      by_cases h1 : (now - ts) / 86400 > 0
      · rw [if_pos h1]
        exact Or.inl ⟨((now - ts) / 86400).toNat,
          by rw [int_toString_nonneg _ (by omega)]⟩
      · rw [if_neg h1]
        by_cases h2 : (now - ts) % 86400 > 3600
        · rw [if_pos h2]
          exact Or.inr (Or.inl ⟨((now - ts) % 86400 / 3600).toNat,
            by rw [int_toString_nonneg _ (by omega)]⟩)
        · rw [if_neg h2]
          by_cases h3 : (now - ts) % 86400 > 60
          · rw [if_pos h3]
            exact Or.inr (Or.inr (Or.inl ⟨((now - ts) % 86400 / 60).toNat,
              by rw [int_toString_nonneg _ (by omega)]⟩))
          · rw [if_neg h3]
            exact Or.inr (Or.inr (Or.inr rfl))
    · have hbad : fromtimestampOk ts = false := by
        revert hok
        cases fromtimestampOk ts <;> simp
      unfold convert_reddit_time
      rw [if_neg h0, hbad]
      exact Or.inr (Or.inl ⟨r12, rfl⟩)
  · intro hpos hle12 hle1 hok1 hok2
    rw [unitRank_convert ts1 now r6 r12 (by omega) hok1 hle1,
        unitRank_convert ts2 now r6 r12 (by omega) hok2 (by omega)]
    exact rankOfElapsed_mono _ _ (by omega)

/-- Claim C9, witness: the amended statement at now = 1000000 with
timestamps 500 and 100. -/
theorem claim_C9_witness :
    fourFormats (convert_reddit_time 100 1000000 2 5) ∧
    unitRank (convert_reddit_time 500 1000000 2 5) ≤
      unitRank (convert_reddit_time 100 1000000 2 5) := by
  have h := claim_C9_amended 1000000 100 500 100 2 5 (by decide) (by decide)
  exact ⟨h.1 (by decide),
    h.2 (by decide) (by decide) (by decide) (by decide) (by decide)⟩

/-- Claim C3, counterexample: on the same short input `"&amp; escaped"`
(well under both length caps, so truncation is irrelevant) the item-body
cleaning leaves the HTML entity in place while the sub-item cleaning
un-escapes it — the two transformations are not the same. -/
theorem claim_C3_counterexample :
    clean_text ("&amp; escaped".toList) = ("&amp; escaped".toList) ∧
    clean_comment_text ("&amp; escaped".toList) = ("& escaped".toList) ∧
    clean_text ("&amp; escaped".toList) ≠ clean_comment_text ("&amp; escaped".toList) := by
  decide

/-- Claim C3, amended: both cleanings collapse whitespace runs and truncate
with an ellipsis marker (500 for item bodies, 300 for sub-item bodies), but
only the sub-item cleaning strips markup markers and un-escapes HTML
entities; on inputs free of markup and entities whose collapsed form is
within the smaller cap, the two cleanings agree. -/
theorem claim_C3_amended (x : List Char) (h1 : stripMarkup x = x)
    (h2 : (collapseWS x).length ≤ 300) :
    clean_comment_text x = clean_text x := by
  simp only [clean_comment_text, clean_text]
  by_cases hm : x = [] ∨ x = ("[deleted]".toList) ∨ x = ("[removed]".toList)
  · rw [if_pos hm, if_pos hm]
  · rw [if_neg hm, if_neg hm, h1]
    rw [if_neg (show ¬ ((collapseWS x).length > 300) by omega),
        if_neg (show ¬ ((collapseWS x).length > 500) by omega)]

/-- Claim C3, witness: the amended statement at a markup-free input. -/
theorem claim_C3_witness :
    clean_comment_text ("hello world".toList) = clean_text ("hello world".toList) := by
  exact claim_C3_amended ("hello world".toList) (by decide) (by decide)

/-- Claim C5, counterexample: a body that contains the deletion marker as a
proper substring is returned unchanged, not mapped to the empty string. -/
theorem claim_C5_counterexample :
    isSubL ("[deleted]".toList) ("note: [deleted]".toList) = true ∧
    clean_text ("note: [deleted]".toList) = ("note: [deleted]".toList) ∧
    clean_text ("note: [deleted]".toList) ≠ [] := by decide

/-- Claim C5, amended: `clean_text` returns the empty string exactly when
the input is equal to `'[deleted]'` or `'[removed]'`, or contains no
non-whitespace character (in particular when it is empty); containing the
marker as a proper substring does not empty the text. -/
theorem claim_C5_amended (x : List Char) :
    clean_text x = [] ↔
      (x = ("[deleted]".toList) ∨ x = ("[removed]".toList) ∨ collapseWS x = []) := by
  simp only [clean_text]
  by_cases hm : x = [] ∨ x = ("[deleted]".toList) ∨ x = ("[removed]".toList)
  · rw [if_pos hm]
    constructor
    · intro _
      rcases hm with h | h | h
      · right; right; rw [h]; decide
      · left; exact h
      · right; left; exact h
    · intro _; rfl
  · rw [if_neg hm]
    push_neg at hm
    by_cases ht : (collapseWS x).length > 500
    · rw [if_pos ht]
      constructor
      · intro habs
        have hlen := congrArg List.length habs
        rw [List.length_append] at hlen
        simp only [List.length_nil] at hlen
        have h3 : (("...".toList) : List Char).length = 3 := by decide
        omega
      · intro hr
        rcases hr with h | h | h
        · exact absurd h hm.2.1
        · exact absurd h hm.2.2
        · rw [h] at ht
          simp at ht
    · rw [if_neg ht]
      constructor
      · intro h
        right; right; exact h
      · intro hr
        rcases hr with h | h | h
        · exact absurd h hm.2.1
        · exact absurd h hm.2.2
        · exact h

/-- Claim C6, counterexample: for a post with empty selftext and URL
`http://x.com/page.jpg.html` the code classifies `image` (the suffix
`.jpg` occurs as a substring of the URL), while the spec's
extension-matching reading classifies `link` — the classification is not
extension-based. -/
theorem claim_C6_counterexample :
    determine_post_type trickyPost = ("image".toList) ∧
    determine_post_type_ext trickyPost = ("link".toList) ∧
    determine_post_type trickyPost ≠ determine_post_type_ext trickyPost := by decide

/-- Claim C6, amended: the classification is `text` when the body text is
non-empty; else `image` when the lowercased URL contains a known image
suffix as a substring (not necessarily as its extension), in which case the
extracted image URL is the post URL itself; else `link` when a URL exists
and differs from the permalink; else `text`. -/
theorem claim_C6_amended (post : RawPost) :
    (post.selftext ≠ [] → determine_post_type post = ("text".toList)) ∧
    (post.selftext = [] → hasImageExt post.url = true →
      determine_post_type post = ("image".toList) ∧ get_image_url post = some post.url) ∧
    (post.selftext = [] → hasImageExt post.url = false →
      post.url ≠ [] → post.url ≠ post.permalink →
      determine_post_type post = ("link".toList)) ∧
    (post.selftext = [] → hasImageExt post.url = false →
      (post.url = [] ∨ post.url = post.permalink) →
      determine_post_type post = ("text".toList)) := by
  refine ⟨?_, ?_, ?_, ?_⟩
  · intro h
    unfold determine_post_type
    rw [if_pos h]
  · intro h hi
    constructor
    · unfold determine_post_type
      rw [if_neg (show ¬ post.selftext ≠ [] by simp [h]), if_pos hi]
    · unfold get_image_url
      rw [if_pos hi]
  · intro h hi hu hp
    unfold determine_post_type
    rw [if_neg (show ¬ post.selftext ≠ [] by simp [h]),
        if_neg (show ¬ (hasImageExt post.url = true) by simp [hi]),
        if_pos ⟨hu, hp⟩]
  · intro h hi hd
    unfold determine_post_type
    rw [if_neg (show ¬ post.selftext ≠ [] by simp [h]),
        if_neg (show ¬ (hasImageExt post.url = true) by simp [hi]),
        if_neg (show ¬ (post.url ≠ [] ∧ post.url ≠ post.permalink) by
          rcases hd with h1 | h1 <;> simp [h1])]

/-- Claim C6, witness: the spec's scenario — raw URL `http://x.com/cat.jpg`
with empty selftext is classified `image` and the extracted image URL is
that URL. -/
theorem claim_C6_witness :
    determine_post_type catPost = ("image".toList) ∧
    get_image_url catPost = some catPost.url := by
  exact (claim_C6_amended catPost).2.1 (by decide) (by decide)

/-- Claim C7: cleaning is idempotent on already-clean inputs within the
length cap — for item bodies, inputs with collapsed whitespace and length at
most 500; for sub-item bodies, inputs additionally free of markup/entity
occurrences and of length at most 300. -/
theorem claim_C7 (x : List Char) :
    (collapseWS x = x → x.length ≤ 500 → clean_text (clean_text x) = clean_text x) ∧
    (stripMarkup x = x → collapseWS x = x → x.length ≤ 300 →
      clean_comment_text (clean_comment_text x) = clean_comment_text x) := by
  constructor
  · intro hc hl
    by_cases hm : x = [] ∨ x = ("[deleted]".toList) ∨ x = ("[removed]".toList)
    · have h1 : clean_text x = [] := by
        simp only [clean_text]
        rw [if_pos hm]
      rw [h1]
      decide
    · have h1 : clean_text x = x := by
        simp only [clean_text]
        rw [if_neg hm, hc, if_neg (show ¬ (x.length > 500) by omega)]
      rw [h1]
      exact h1
  · intro hs hc hl
    by_cases hm : x = [] ∨ x = ("[deleted]".toList) ∨ x = ("[removed]".toList)
    · have h1 : clean_comment_text x = [] := by
        simp only [clean_comment_text]
        rw [if_pos hm]
      rw [h1]
      decide
    · have h1 : clean_comment_text x = x := by
        simp only [clean_comment_text]
        rw [if_neg hm, hs, hc, if_neg (show ¬ (x.length > 300) by omega)]
      rw [h1]
      exact h1

/-- Claim C7, witness: idempotence of both cleanings at an already-clean
input. -/
theorem claim_C7_witness :
    clean_text (clean_text ("hello world".toList)) = clean_text ("hello world".toList) ∧
    clean_comment_text (clean_comment_text ("hello world".toList)) =
      clean_comment_text ("hello world".toList) := by
  have h := claim_C7 ("hello world".toList)
  exact ⟨h.1 (by decide) (by decide), h.2 (by decide) (by decide) (by decide)⟩

/-- Claim C4: for every comment-listing response the returned sub-item list
has at most 5 entries, is the initial segment of the surviving (filtered)
sub-items in API return order, every surviving raw comment has a non-null,
non-marker body with cleaned text longer than 10 characters, every returned
entry has cleaned text longer than 10 characters, and a failed fetch
returns the empty list. -/
theorem claim_C4 (env : TimeEnv) (children : List RawComment) :
    (fetch_post_comments env (some children)).length ≤ 5 ∧
    fetch_post_comments env (some children) =
      ((children.filter keepComment).map (processComment env)).take
        (fetch_post_comments env (some children)).length ∧
    (∀ r ∈ children, keepComment r = true →
      r.body ≠ none ∧ r.body ≠ some ("[deleted]".toList) ∧
      r.body ≠ some ("[removed]".toList) ∧
      10 < (clean_comment_text (r.body.getD [])).length) ∧
    (∀ c ∈ fetch_post_comments env (some children), 10 < c.text.length) ∧
    fetch_post_comments env none = [] := by
  refine ⟨?_, ?_, ?_, ?_, rfl⟩
  · have l1 : (fetch_post_comments env (some children)).length =
        ((children.take 5).filter keepComment).length := by
      simp [fetch_post_comments]
    have l2 : ((children.take 5).filter keepComment).length ≤ (children.take 5).length :=
      List.length_filter_le _ _
    have l3 : (children.take 5).length ≤ 5 := List.length_take_le 5 children
    omega
  · simp only [fetch_post_comments, List.length_map]
    rw [← List.map_take]
    exact congrArg (List.map (processComment env)) (filter_take_eq keepComment children 5)
  · intro r _ hk
    rcases hb : r.body with _ | b
    · rw [keepComment, hb] at hk
      simp at hk
    · rw [keepComment, hb] at hk
      simp only [Bool.and_eq_true, decide_eq_true_eq, Bool.not_eq_true',
        Bool.not_eq_true] at hk
      refine ⟨by simp, ?_, ?_, ?_⟩
      · intro habs
        have hbe : b = ("[deleted]".toList) := by injection habs
        have hdel : ¬ (b = ("[deleted]".toList)) := by simpa using hk.2.1.1.1
        exact absurd hbe hdel
      · intro habs
        have hbe : b = ("[removed]".toList) := by injection habs
        have hrem : ¬ (b = ("[removed]".toList)) := by simpa using hk.2.1.1.2
        exact absurd hbe hrem
      · simpa using hk.2.2
  · intro c hc
    simp only [fetch_post_comments, List.mem_map, List.mem_filter] at hc
    obtain ⟨r, ⟨_, hkr⟩, rfl⟩ := hc
    rcases hb : r.body with _ | b
    · rw [keepComment, hb] at hkr
      simp at hkr
    · rw [keepComment, hb] at hkr
      simp only [Bool.and_eq_true, decide_eq_true_eq] at hkr
      have hlen : (clean_comment_text b).length > 10 := hkr.2.2
      simp only [processComment, hb, Option.getD_some]
      exact hlen

/-- Claim C4, witness: the bound applied to a small demo listing. -/
theorem claim_C4_witness :
    (fetch_post_comments ⟨1000000, 1, 1⟩ (some demoComments)).length ≤ 5 := by
  exact (claim_C4 ⟨1000000, 1, 1⟩ demoComments).1
